import Mathlib

/-!
Verification of the Gmail MCP server's tool-execution orchestrator.

This file gives a shallow embedding of the core of the repository:
`GmailApiClient.list_message_ids` and `GmailApiClient.get_message_details`
(src/mcp_server/gmail/gmail_client.py) and the orchestrator `_execute_tool`
(src/mcp_server/gmail/server.py).  The remote Gmail service is modelled as a
pair of oracles: one mapping a listing request to its outcome, one mapping a
message id to the outcome of the metadata fetch.  An outcome can be a normal
response or a raised exception (`HttpError` or any other exception class).
`_execute_tool` is embedded as a pure function that returns the JSON payload
it would serialize, together with the trace of adapter calls it made, so that
claims of the form "the adapter's listing method is never called" can be
stated.  `asyncio.gather` is modelled both directly (results in task order)
and through an explicit completion schedule, to express that the final order
is independent of the order in which the concurrent fetches complete.
-/

set_option autoImplicit false

namespace MCPGmail

/-- A message reference as returned by `users().messages().list`:
the dicts `{'id': ..., 'threadId': ...}` of the `messages` field. -/
structure MessageRef where
  id : String
  threadId : String
deriving Repr, DecidableEq

/-- One header object of the raw message payload: `{"name": ..., "value": ...}`. -/
structure RawHeader where
  name : String
  value : String
deriving Repr, DecidableEq

/-- The raw response of `users().messages().get(...)` as far as
`get_message_details` reads it: the response body's own `id` (present in the
real API response but ignored by the code), `msg.get("payload", {}).get("headers", [])`
(`headers = none` models a missing `payload`/`headers` key, defaulted to `[]`),
and `msg.get("snippet", "")` (`none` models a missing `snippet` key). -/
structure RawMessage where
  id : Option String
  headers : Option (List RawHeader)
  snippet : Option String
deriving Repr, DecidableEq

/-- The normalized projection built by `get_message_details`:
`{"id", "subject", "from", "date", "snippet"}` (the `from` key is held in the
Python local `sender`; `from` is a Lean keyword so the field is named `sender`). -/
structure MessageDetail where
  id : String
  subject : String
  sender : String
  date : String
  snippet : String
deriving Repr, DecidableEq

/-- The placeholder dict appended by `_execute_tool` when a detail fetch
returned `None`. -/
structure FailureEntry where
  id : String
  error : String
  subject : String
  sender : String
  date : String
  snippet : String
deriving Repr, DecidableEq

/-- The constant failure placeholder built at server.py lines 207-211. -/
def theFailureEntry : FailureEntry :=
  { id := "unknown"
  , error := "Failed to fetch message details"
  , subject := "Error", sender := "Error", date := "Error", snippet := "" }

/-- One element of the `messages` list of the output payload: either the
detail dict of a successful fetch or the failure placeholder dict. -/
inductive Entry where
  | detail (d : MessageDetail)
  | failure (f : FailureEntry)
deriving Repr, DecidableEq

/-- The JSON object serialized into the returned `TextContent`:
either `{"messages": [...]}` or `{"error": "..."}`. -/
inductive Payload where
  | messages (entries : List Entry)
  | error (msg : String)
deriving Repr, DecidableEq

/-- Outcome of one call to the upstream `get` endpoint for a message id:
a response body, a raised `HttpError`, or any other raised exception
(carrying `str(e)`). -/
inductive FetchOutcome where
  | success (msg : RawMessage)
  | httpError (status : Nat) (reason : String)
  | otherError (msg : String)
deriving Repr, DecidableEq

/-- The request `list_message_ids` builds at gmail_client.py lines 49-54:
`q=query, labelIds=label_ids, maxResults=max_results` (the constant
`userId="me"` is omitted). -/
structure ListRequest where
  q : Option String
  labelIds : Option (List String)
  maxResults : Int
deriving Repr, DecidableEq

/-- The response body of a successful listing call, as far as the code reads
it: `response.get("messages", [])`; `none` models a missing `messages` key. -/
structure ListResponse where
  messages : Option (List MessageRef)
deriving Repr, DecidableEq

/-- Outcome of one call to the upstream `list` endpoint. -/
inductive ListOutcome where
  | ok (resp : ListResponse)
  | httpError (status : Nat) (reason : String)
  | otherError (msg : String)
deriving Repr, DecidableEq

/-- Result of `list_message_ids` as seen by its caller: the returned ref list,
or the exception that propagated out of it. -/
inductive ListResult where
  | ok (refs : List MessageRef)
  | httpError (status : Nat) (reason : String)
  | otherError (msg : String)
deriving Repr, DecidableEq

/-- The upstream Gmail service reached through the adapter, modelled as the
outcomes of its two endpoints for every possible call. -/
structure Upstream where
  list : ListRequest → ListOutcome
  get : String → FetchOutcome

/-- `GmailApiClient.list_message_ids` (gmail_client.py lines 31-62): builds
the request, executes it, returns `response.get("messages", [])`.  An
`HttpError` is caught, logged and re-raised unchanged; any other exception is
not caught and propagates. -/
def list_message_ids (svc : ListRequest → ListOutcome) (query : Option String)
    (label_ids : Option (List String)) (max_results : Int) : ListResult :=
  match svc { q := query, labelIds := label_ids, maxResults := max_results } with
  | .ok resp => .ok (resp.messages.getD [])
  | .httpError s r => .httpError s r
  | .otherError m => .otherError m

/-- `next((h["value"] for h in headers if h["name"] == name), default)` minus
the default: the value of the first header with the given name, if any. -/
def headerValue (headers : List RawHeader) (name : String) : Option String :=
  (headers.find? (fun h => h.name == name)).map (fun h => h.value)

/-- `GmailApiClient.get_message_details` (gmail_client.py lines 64-105):
fetches the message metadata and builds the detail dict; every `HttpError`
and every other exception is caught and turned into `None`. -/
def get_message_details (oracle : String → FetchOutcome) (message_id : String) :
    Option MessageDetail :=
  match oracle message_id with
  | .success msg =>
      some
        { id := message_id
        , subject := (headerValue (msg.headers.getD []) "Subject").getD "No Subject"
        , sender := (headerValue (msg.headers.getD []) "From").getD "Unknown"
        , date := (headerValue (msg.headers.getD []) "Date").getD "Unknown"
        , snippet := msg.snippet.getD "" }
  | .httpError _ _ => none
  | .otherError _ => none

/-- The entry appended to `output` for one gathered result (server.py lines
199-211): the detail dict when the fetch returned one, the failure
placeholder when it returned `None`. -/
def detailEntry (get : String → FetchOutcome) (r : MessageRef) : Entry :=
  match get_message_details get r.id with
  | some d => .detail d
  | none => .failure theFailureEntry

/-- The whole fan-out / reconcile loop of server.py lines 191-211:
`asyncio.gather` returns the results in task order, one per ref. -/
def fetchDetails (get : String → FetchOutcome) (refs : List MessageRef) : List Entry :=
  refs.map (detailEntry get)

/-- The arguments dict as far as `_execute_tool` reads it:
`arguments.get("query")` and `arguments.get("max_results", 10)`. -/
structure Arguments where
  query : Option String
  max_results : Option Int
deriving Repr, DecidableEq

/-- The result of one embedded invocation: the payload `_execute_tool`
serializes, plus the trace of adapter calls it made (the listing requests
issued, in order, and the message ids whose details were fetched, in order). -/
structure ExecResult where
  payload : Payload
  listCalls : List ListRequest
  getCalls : List String
deriving Repr, DecidableEq

/-- `_execute_tool` (server.py lines 149-236).  Dispatch on the tool name,
validation of `query` (`if not query` is true exactly when the argument is
missing or the empty string), listing with `max_results` defaulted to 10,
fan-out over the returned refs, and the three `except` arms:
`HttpError` becomes `{"error": "Gmail API Error: <status> <reason>"}`,
`ValueError` (unknown tool / missing query) becomes `{"error": str(e)}`, and
any other exception becomes `{"error": "Internal server error: <e>"}`. -/
def _execute_tool (name : String) (arguments : Arguments) (client : Upstream) :
    ExecResult :=
  if name == "list_unread" then
    let max_results := arguments.max_results.getD 10
    let req : ListRequest := { q := none, labelIds := some ["UNREAD"], maxResults := max_results }
    match list_message_ids client.list none (some ["UNREAD"]) max_results with
    | .ok refs =>
        { payload := .messages (fetchDetails client.get refs)
        , listCalls := [req]
        , getCalls := refs.map (fun r => r.id) }
    | .httpError s r =>
        { payload := .error ("Gmail API Error: " ++ toString s ++ " " ++ r)
        , listCalls := [req], getCalls := [] }
    | .otherError m =>
        { payload := .error ("Internal server error: " ++ m)
        , listCalls := [req], getCalls := [] }
  else if name == "search_emails" then
    match arguments.query with
    | none =>
        { payload := .error "Missing or empty required argument: query"
        , listCalls := [], getCalls := [] }
    | some q =>
        if q == "" then
          { payload := .error "Missing or empty required argument: query"
          , listCalls := [], getCalls := [] }
        else
          let max_results := arguments.max_results.getD 10
          let req : ListRequest := { q := some q, labelIds := none, maxResults := max_results }
          match list_message_ids client.list (some q) none max_results with
          | .ok refs =>
              { payload := .messages (fetchDetails client.get refs)
              , listCalls := [req]
              , getCalls := refs.map (fun r => r.id) }
          | .httpError s r =>
              { payload := .error ("Gmail API Error: " ++ toString s ++ " " ++ r)
              , listCalls := [req], getCalls := [] }
          | .otherError m =>
              { payload := .error ("Internal server error: " ++ m)
              , listCalls := [req], getCalls := [] }
  else
    { payload := .error ("Unknown tool: " ++ name)
    , listCalls := [], getCalls := [] }

/-- The listing request a (validation-passing) invocation issues: the filter
resolution of server.py lines 169-183.  `none` when validation fails before
any adapter call (missing/empty query, unknown tool). -/
def invocationRequest (name : String) (arguments : Arguments) : Option ListRequest :=
  if name == "list_unread" then
    some { q := none, labelIds := some ["UNREAD"], maxResults := arguments.max_results.getD 10 }
  else if name == "search_emails" then
    match arguments.query with
    | none => none
    | some q =>
        if q == "" then none
        else some { q := some q, labelIds := none, maxResults := arguments.max_results.getD 10 }
  else none

/-- The fan-out under an explicit completion schedule: `completion` lists the
task indices in the order the event loop finishes them; each finished task
yields the pair (its original index, its outcome).  A pure model of the
concurrent execution underlying `asyncio.gather`. -/
def gatherSchedule (get : String → FetchOutcome) (refs : List MessageRef)
    (completion : List Nat) : List (Nat × Entry) :=
  completion.map (fun i => (i, ((refs[i]?).map (detailEntry get)).getD (.failure theFailureEntry)))

/-- Reading the gathered outcomes back in slot order: slot `i` of the result
receives the outcome recorded for index `i`, as `asyncio.gather` does when it
returns its results in the order the tasks were passed in. -/
def collectSlots (pairs : List (Nat × Entry)) (n : Nat) : List Entry :=
  (List.range n).map
    (fun i => (((pairs.find? (fun p => p.1 == i)).map (fun p => p.2)).getD (.failure theFailureEntry)))

/-! ## Concrete fixtures used to instantiate the theorems -/

/-- An upstream whose listing response carries no `messages` key (so the
adapter returns `[]`) and whose detail endpoint is never reached. -/
def stubClient : Upstream :=
  { list := fun _ => .ok { messages := none }, get := fun _ => .otherError "unused" }

/-- Three listed messages; fetching the middle one fails with a 404. -/
def c1refs : List MessageRef :=
  [{ id := "a", threadId := "t1" }, { id := "b", threadId := "t2" }, { id := "c", threadId := "t3" }]

/-- Detail endpoint for the `c1refs` run: message `b` is unreachable, the
others return a subject header and a snippet but no From/Date headers. -/
def c1get : String → FetchOutcome := fun i =>
  if i = "b" then .httpError 404 "Not Found"
  else .success { id := some i, headers := some [{ name := "Subject", value := "s-" ++ i }]
                , snippet := some ("sn-" ++ i) }

/-- Upstream for the fan-out run over `c1refs`. -/
def c1client : Upstream :=
  { list := fun _ => .ok { messages := some c1refs }, get := c1get }

/-- An upstream whose listing endpoint raises a non-HTTP exception. -/
def c2client : Upstream :=
  { list := fun _ => .otherError "boom", get := fun _ => .otherError "x" }

/-- An upstream whose listing endpoint raises `HttpError` 429 "quota exceeded". -/
def c3client : Upstream :=
  { list := fun _ => .httpError 429 "quota exceeded", get := fun _ => .otherError "x" }

/-- One upstream behaviour, written one way... -/
def c9a : Upstream :=
  { list := fun _ => .ok { messages := some [{ id := "a", threadId := "t" }] }
  , get := fun _ => .httpError 500 "e" }

/-- ...and the same upstream behaviour, written another way: pointwise equal
to `c9a` but not syntactically identical. -/
def c9b : Upstream :=
  { list := fun _ => .ok { messages := some ([] ++ [{ id := "a", threadId := "t" }]) }
  , get := fun _ => .httpError (499 + 1) "e" }

/-- Detail endpoint whose response body carries its own id, different from
the requested one. -/
def c10oracle : String → FetchOutcome := fun _ =>
  .success { id := some "body-id", headers := some [], snippet := some "s" }

/-! ## Helper lemmas shared by the claim theorems -/

/-- When validation resolves a listing request, `_execute_tool` is exactly:
issue that one request, then branch on the listing outcome. -/
theorem execute_tool_spec (name : String) (args : Arguments) (client : Upstream)
    (req : ListRequest) (hreq : invocationRequest name args = some req) :
    _execute_tool name args client =
      match client.list req with
      | .ok resp =>
          { payload := .messages (fetchDetails client.get (resp.messages.getD []))
          , listCalls := [req]
          , getCalls := (resp.messages.getD []).map (fun r => r.id) }
      | .httpError s r =>
          { payload := .error ("Gmail API Error: " ++ toString s ++ " " ++ r)
          , listCalls := [req], getCalls := [] }
      | .otherError m =>
          { payload := .error ("Internal server error: " ++ m)
          , listCalls := [req], getCalls := [] } := by
  by_cases h1 : name = "list_unread"
  · subst h1
    simp only [invocationRequest, beq_self_eq_true, if_true, Option.some.injEq] at hreq
    subst hreq
    simp only [_execute_tool, beq_self_eq_true, if_true, list_message_ids]
    rcases h : client.list _ with resp | ⟨s, r⟩ | m <;> simp [h]
  · by_cases h2 : name = "search_emails"
    · subst h2
      rcases hq : args.query with _ | q
      · simp [invocationRequest, hq] at hreq
      · by_cases hq0 : q = ""
        · subst hq0
          simp [invocationRequest, hq] at hreq
        · have hmain : ({ q := some q, labelIds := none, maxResults := args.max_results.getD 10 } :
              ListRequest) = req := by
            simpa [invocationRequest, hq, hq0] using hreq
          subst hmain
          rcases h : client.list { q := some q, labelIds := none, maxResults := args.max_results.getD 10 }
            with resp | ⟨s, r⟩ | m <;>
            simp [_execute_tool, list_message_ids, hq, hq0, h]
    · simp [invocationRequest, beq_iff_eq, h1, h2] at hreq

/-- `find?` on an index-keyed map hits the entry for a present key and
returns its associated value. -/
theorem find_map_pair {β : Type} (f : Nat → β) (l : List Nat) (i : Nat) (h : i ∈ l) :
    (l.map (fun j => (j, f j))).find? (fun p => p.1 == i) = some (i, f i) := by
  induction l with
  | nil => cases h
  | cons a t ih =>
    by_cases ha : a = i
    · subst ha
      simp [List.find?_cons]
    · have ht : i ∈ t := by
        rcases List.mem_cons.mp h with h' | h'
        · exact absurd h'.symm ha
        · exact h'
      simp [List.find?_cons, ha, ih ht]

/-- Mapping a function over the positions of a list, via optional indexing
with a default, is mapping it over the list. -/
theorem range_map_getElem {α β : Type} (l : List α) (f : α → β) (d : β) :
    (List.range l.length).map (fun i => ((l[i]?).map f).getD d) = l.map f := by
  induction l with
  | nil => simp
  | cons a t ih =>
    rw [List.length_cons, List.range_succ_eq_map]
    simp only [List.map_cons, List.map_map]
    refine congrArg₂ List.cons (by simp) ?_
    calc (List.range t.length).map ((fun i => ((a :: t)[i]?.map f).getD d) ∘ Nat.succ)
        = (List.range t.length).map (fun i => ((t[i]?).map f).getD d) := by
          refine List.map_congr_left ?_
          intro i _
          simp [Function.comp]
      _ = t.map f := ih

/-- As long as every slot index appears in the completion schedule, reading
the scheduled gather back in slot order yields exactly the in-order fan-out,
whatever the completion order was. -/
theorem collectSlots_gatherSchedule (get : String → FetchOutcome) (refs : List MessageRef)
    (completion : List Nat) (hmem : ∀ i, i < refs.length → i ∈ completion) :
    collectSlots (gatherSchedule get refs completion) refs.length = fetchDetails get refs := by
  have h1 : ∀ i ∈ List.range refs.length,
      ((((gatherSchedule get refs completion).find? (fun p => p.1 == i)).map
          (fun p => p.2)).getD (Entry.failure theFailureEntry))
        = ((refs[i]?).map (detailEntry get)).getD (Entry.failure theFailureEntry) := by
    intro i hi
    unfold gatherSchedule
    rw [find_map_pair (fun j => ((refs[j]?).map (detailEntry get)).getD (Entry.failure theFailureEntry))
      completion i (hmem i (List.mem_range.mp hi))]
    rfl
  unfold collectSlots
  rw [List.map_congr_left h1]
  exact range_map_getElem refs (detailEntry get) (Entry.failure theFailureEntry)

/-! ## The claims -/

/-- C1: for every valid `list_unread` or `search_emails` invocation whose
listing succeeds and returns N MessageRefs, the result's `messages` sequence
has exactly N entries; the entry at position i is the MessageDetail of the
i-th ref when its detail fetch succeeded and the failure placeholder when it
failed; and the sequence coincides with what any completion order of the
concurrent fetches produces. -/
theorem C1_fanout_order (name : String) (args : Arguments) (client : Upstream)
    (req : ListRequest) (resp : ListResponse) (refs : List MessageRef)
    (hreq : invocationRequest name args = some req)
    (hlist : client.list req = .ok resp)
    (hrefs : resp.messages.getD [] = refs) :
    ∃ es : List Entry,
      (_execute_tool name args client).payload = .messages es
      ∧ es.length = refs.length
      ∧ (∀ i (h : i < refs.length),
          (∀ d, get_message_details client.get refs[i].id = some d →
            es[i]? = some (.detail d))
          ∧ (get_message_details client.get refs[i].id = none →
            es[i]? = some (.failure theFailureEntry)))
      ∧ (∀ completion : List Nat, completion.Perm (List.range refs.length) →
          es = collectSlots (gatherSchedule client.get refs completion) refs.length) := by
  subst hrefs
  refine ⟨fetchDetails client.get (resp.messages.getD []), ?_, ?_, ?_, ?_⟩
  · rw [execute_tool_spec name args client req hreq, hlist]
  · simp [fetchDetails]
  · intro i h
    constructor
    · intro d hd
      rw [fetchDetails, List.getElem?_map, List.getElem?_eq_getElem h]
      simp [detailEntry, hd]
    · intro hd
      rw [fetchDetails, List.getElem?_map, List.getElem?_eq_getElem h]
      simp [detailEntry, hd]
  · intro completion hperm
    exact (collectSlots_gatherSchedule client.get (resp.messages.getD []) completion
      (fun i hi => hperm.mem_iff.mpr (List.mem_range.mpr hi))).symm

/-- C1 witness: a three-message run where the middle fetch fails, under the
completion order [2, 0, 1] (the last task finishes first). -/
theorem C1_fanout_order_witness :
    (_execute_tool "list_unread" { query := none, max_results := none } c1client).payload
      = .messages (collectSlots (gatherSchedule c1client.get c1refs [2, 0, 1]) c1refs.length)
    ∧ collectSlots (gatherSchedule c1client.get c1refs [2, 0, 1]) c1refs.length
      = [ .detail { id := "a", subject := "s-a", sender := "Unknown", date := "Unknown", snippet := "sn-a" }
        , .failure theFailureEntry
        , .detail { id := "c", subject := "s-c", sender := "Unknown", date := "Unknown", snippet := "sn-c" } ] := by
  obtain ⟨es, h1, h2, h3, h4⟩ := C1_fanout_order "list_unread" { query := none, max_results := none }
    c1client { q := none, labelIds := some ["UNREAD"], maxResults := 10 }
    { messages := some c1refs } c1refs rfl rfl rfl
  have h5 := h4 [2, 0, 1] (by decide)
  exact ⟨by rw [h1, h5], by decide⟩

/-- C2: `_execute_tool` always yields a well-formed payload (a `messages`
object or an `error` object); an unexpected fault from the listing call
— anything that is neither an `HttpError` nor a validation `ValueError` —
yields `error: "Internal server error: <message>"`. -/
theorem C2_no_escape (name : String) (args : Arguments) (client : Upstream) :
    ((∃ es, (_execute_tool name args client).payload = .messages es)
      ∨ (∃ m, (_execute_tool name args client).payload = .error m))
    ∧ (∀ req m, invocationRequest name args = some req → client.list req = .otherError m →
        (_execute_tool name args client).payload = .error ("Internal server error: " ++ m)) := by
  constructor
  · rcases hp : (_execute_tool name args client).payload with es | m
    · exact .inl ⟨es, rfl⟩
    · exact .inr ⟨m, rfl⟩
  · intro req m hreq hlist
    rw [execute_tool_spec name args client req hreq, hlist]

/-- C2 witness: a listing endpoint raising a non-HTTP exception "boom". -/
theorem C2_no_escape_witness :
    (_execute_tool "list_unread" { query := none, max_results := none } c2client).payload
      = .error "Internal server error: boom" :=
  (C2_no_escape "list_unread" { query := none, max_results := none } c2client).2
    { q := none, labelIds := some ["UNREAD"], maxResults := 10 } "boom" rfl rfl

/-- C3: a listing call raising `HttpError` with status s and reason r makes
the invocation return the payload `error: "Gmail API Error: <s> <r>"`. -/
theorem C3_upstream_error (name : String) (args : Arguments) (client : Upstream)
    (req : ListRequest) (s : Nat) (r : String)
    (hreq : invocationRequest name args = some req)
    (hlist : client.list req = .httpError s r) :
    (_execute_tool name args client).payload
      = .error ("Gmail API Error: " ++ toString s ++ " " ++ r) := by
  rw [execute_tool_spec name args client req hreq, hlist]

/-- C3 witness: status 429, reason "quota exceeded". -/
theorem C3_upstream_error_witness :
    (_execute_tool "search_emails" { query := some "is:unread", max_results := some 5 } c3client).payload
      = .error "Gmail API Error: 429 quota exceeded" := by
  have h := C3_upstream_error "search_emails" { query := some "is:unread", max_results := some 5 }
    c3client { q := some "is:unread", labelIds := none, maxResults := 5 } 429 "quota exceeded"
    (by decide) rfl
  rw [h]
  rfl

/-- C4: a `search_emails` invocation with a missing or empty `query` yields
exactly `error: "Missing or empty required argument: query"` and makes no
adapter call at all (in particular the listing method is never called). -/
theorem C4_missing_query (args : Arguments) (client : Upstream)
    (h : args.query = none ∨ args.query = some "") :
    _execute_tool "search_emails" args client
      = { payload := .error "Missing or empty required argument: query"
        , listCalls := [], getCalls := [] } := by
  rcases h with h | h <;> simp [_execute_tool, h]

/-- C4 witness: the empty-string query. -/
theorem C4_missing_query_witness :
    _execute_tool "search_emails" { query := some "", max_results := some 7 } stubClient
      = { payload := .error "Missing or empty required argument: query"
        , listCalls := [], getCalls := [] } :=
  C4_missing_query { query := some "", max_results := some 7 } stubClient (Or.inr rfl)

/-- C5: an invocation with a tool name other than `list_unread` and
`search_emails` yields exactly `error: "Unknown tool: <name>"` and makes no
adapter call. -/
theorem C5_unknown_tool (name : String) (args : Arguments) (client : Upstream)
    (h1 : name ≠ "list_unread") (h2 : name ≠ "search_emails") :
    _execute_tool name args client
      = { payload := .error ("Unknown tool: " ++ name), listCalls := [], getCalls := [] } := by
  simp [_execute_tool, beq_iff_eq, h1, h2]

/-- C5 witness: the tool name "frobnicate". -/
theorem C5_unknown_tool_witness :
    _execute_tool "frobnicate" { query := none, max_results := none } stubClient
      = { payload := .error "Unknown tool: frobnicate", listCalls := [], getCalls := [] } := by
  have h := C5_unknown_tool "frobnicate" { query := none, max_results := none } stubClient
    (by decide) (by decide)
  rw [h]
  rfl

/-- C6: a valid invocation whose listing returns zero refs yields exactly
the payload `messages: []`, and no detail fetch is issued. -/
theorem C6_empty_listing (name : String) (args : Arguments) (client : Upstream)
    (req : ListRequest) (resp : ListResponse)
    (hreq : invocationRequest name args = some req)
    (hlist : client.list req = .ok resp)
    (hempty : resp.messages.getD [] = []) :
    (_execute_tool name args client).payload = .messages []
    ∧ (_execute_tool name args client).getCalls = [] := by
  rw [execute_tool_spec name args client req hreq, hlist]
  constructor <;> simp [hempty, fetchDetails]

/-- C6 witness: a listing response with no `messages` key at all. -/
theorem C6_empty_listing_witness :
    (_execute_tool "list_unread" { query := none, max_results := none } stubClient).payload
        = .messages []
    ∧ (_execute_tool "list_unread" { query := none, max_results := none } stubClient).getCalls
        = [] :=
  C6_empty_listing "list_unread" { query := none, max_results := none } stubClient
    { q := none, labelIds := some ["UNREAD"], maxResults := 10 } { messages := none } rfl rfl rfl

/-- C7: `get_message_details` never raises: its shallow embedding is a total
function into `Option MessageDetail`; a lookup failure (`HttpError`) or any
other exception gives `none` (the absent signal), and a success gives a
detail in which a missing Subject header resolves to "No Subject", missing
From and Date headers resolve to "Unknown", and a missing snippet resolves
to the empty string. -/
theorem C7_detail_never_raises (oracle : String → FetchOutcome) (mid : String) :
    (∀ s r, oracle mid = .httpError s r → get_message_details oracle mid = none)
    ∧ (∀ m, oracle mid = .otherError m → get_message_details oracle mid = none)
    ∧ (∀ msg, oracle mid = .success msg →
        ∃ d, get_message_details oracle mid = some d
          ∧ (headerValue (msg.headers.getD []) "Subject" = none → d.subject = "No Subject")
          ∧ (headerValue (msg.headers.getD []) "From" = none → d.sender = "Unknown")
          ∧ (headerValue (msg.headers.getD []) "Date" = none → d.date = "Unknown")
          ∧ (msg.snippet = none → d.snippet = "")) := by
  refine ⟨?_, ?_, ?_⟩
  · intro s r h
    simp [get_message_details, h]
  · intro m h
    simp [get_message_details, h]
  · intro msg h
    exact ⟨{ id := mid
           , subject := (headerValue (msg.headers.getD []) "Subject").getD "No Subject"
           , sender := (headerValue (msg.headers.getD []) "From").getD "Unknown"
           , date := (headerValue (msg.headers.getD []) "Date").getD "Unknown"
           , snippet := msg.snippet.getD "" }
         , by simp [get_message_details, h]
         , fun hn => by simp [hn], fun hn => by simp [hn]
         , fun hn => by simp [hn], fun hn => by simp [hn]⟩

/-- C7 witness: a 404 lookup gives the absent signal; a success whose raw
message has no payload, no headers and no snippet still yields a detail. -/
theorem C7_detail_never_raises_witness :
    get_message_details (fun _ => FetchOutcome.httpError 404 "Not Found") "m1" = none
    ∧ (get_message_details
        (fun _ => FetchOutcome.success { id := none, headers := none, snippet := none })
        "m2").isSome = true := by
  constructor
  · exact (C7_detail_never_raises (fun _ => FetchOutcome.httpError 404 "Not Found") "m1").1
      404 "Not Found" rfl
  · obtain ⟨d, hd, -, -, -, -⟩ :=
      (C7_detail_never_raises
        (fun _ => FetchOutcome.success { id := none, headers := none, snippet := none }) "m2").2.2
        { id := none, headers := none, snippet := none } rfl
    rw [hd]
    rfl

/-- C8: both tools pass `max_results` through unchanged as the listing
call's `maxResults`, defaulting to 10 when the argument is omitted. -/
theorem C8_max_results (args : Arguments) (client : Upstream) :
    ((_execute_tool "list_unread" args client).listCalls.map ListRequest.maxResults
        = [args.max_results.getD 10])
    ∧ (∀ q, args.query = some q → q ≠ "" →
        (_execute_tool "search_emails" args client).listCalls.map ListRequest.maxResults
          = [args.max_results.getD 10])
    ∧ (args.max_results = none →
        (_execute_tool "list_unread" args client).listCalls.map ListRequest.maxResults = [10])
    ∧ (∀ v, args.max_results = some v →
        (_execute_tool "list_unread" args client).listCalls.map ListRequest.maxResults = [v]) := by
  have hl : (_execute_tool "list_unread" args client).listCalls
      = [{ q := none, labelIds := some ["UNREAD"], maxResults := args.max_results.getD 10 }] := by
    rw [execute_tool_spec "list_unread" args client
      { q := none, labelIds := some ["UNREAD"], maxResults := args.max_results.getD 10 } rfl]
    rcases hcl : client.list { q := none, labelIds := some ["UNREAD"], maxResults := args.max_results.getD 10 } with resp | ⟨s, r⟩ | m <;> rfl
  refine ⟨by rw [hl]; rfl, ?_, ?_, ?_⟩
  · intro q hq hq0
    have hreq : invocationRequest "search_emails" args
        = some { q := some q, labelIds := none, maxResults := args.max_results.getD 10 } := by
      simp [invocationRequest, hq, hq0]
    rw [execute_tool_spec "search_emails" args client _ hreq]
    rcases hcl : client.list { q := some q, labelIds := none, maxResults := args.max_results.getD 10 } with resp | ⟨s, r⟩ | m <;> rfl
  · intro h
    rw [hl, h]
    rfl
  · intro v hv
    rw [hl, hv]
    rfl

/-- C8 witness: omitted `max_results` becomes 10; `max_results = 25` is
passed through as 25. -/
theorem C8_max_results_witness :
    (_execute_tool "list_unread" { query := none, max_results := none } stubClient).listCalls.map
        ListRequest.maxResults = [10]
    ∧ (_execute_tool "search_emails" { query := some "x", max_results := some 25 }
        stubClient).listCalls.map ListRequest.maxResults = [25] := by
  constructor
  · exact (C8_max_results { query := none, max_results := none } stubClient).2.2.1 rfl
  · exact (C8_max_results { query := some "x", max_results := some 25 } stubClient).2.1
      "x" rfl (by decide)

/-- C9: two invocations with the same tool name and arguments, against an
upstream that returns the same listing outcome for every request and the
same detail outcome for every message id, produce structurally identical
results (payload and call trace alike). -/
theorem C9_idempotent (name : String) (args : Arguments) (c1 c2 : Upstream)
    (hlist : ∀ req, c1.list req = c2.list req)
    (hget : ∀ i, c1.get i = c2.get i) :
    _execute_tool name args c1 = _execute_tool name args c2 := by
  have h : c1 = c2 := by
    cases c1
    cases c2
    simp only [Upstream.mk.injEq]
    exact ⟨funext hlist, funext hget⟩
  rw [h]

/-- C9 witness: two syntactically different but pointwise equal upstreams. -/
theorem C9_idempotent_witness :
    _execute_tool "list_unread" { query := none, max_results := none } c9a
      = _execute_tool "list_unread" { query := none, max_results := none } c9b :=
  C9_idempotent "list_unread" { query := none, max_results := none } c9a c9b
    (fun _ => rfl) (fun _ => rfl)

/-- C10: a successful detail fetch returns a detail whose `id` is the
requested message id, not the identifier carried by the response body. -/
theorem C10_detail_id (oracle : String → FetchOutcome) (mid : String) (d : MessageDetail)
    (h : get_message_details oracle mid = some d) : d.id = mid := by
  rcases ho : oracle mid with msg | ⟨s, r⟩ | m <;> simp [get_message_details, ho] at h
  subst h
  rfl

/-- C10 witness: the response body carries id "body-id", the requested id is
"req-id"; the returned detail's id is "req-id". -/
theorem C10_detail_id_witness :
    get_message_details c10oracle "req-id"
      = some { id := "req-id", subject := "No Subject", sender := "Unknown"
             , date := "Unknown", snippet := "s" }
    ∧ ({ id := "req-id", subject := "No Subject", sender := "Unknown"
       , date := "Unknown", snippet := "s" } : MessageDetail).id = "req-id" :=
  ⟨rfl, C10_detail_id c10oracle "req-id"
    { id := "req-id", subject := "No Subject", sender := "Unknown"
    , date := "Unknown", snippet := "s" } rfl⟩

end MCPGmail
